import Mathlib

/-!
Verification of the Meater cloud-API client (`src/meater/MeaterApi.py`).

The Python module is shallowly embedded: JSON values decoded by `json` /
`aiohttp`'s `.json()` become the inductive `JValue`; the Python runtime
behaviours the client relies on (`dict.get`, `len`, `enumerate`, `float`,
`int`, truthiness) become explicit total functions returning
`Except MeaterError _`.  The error type carries the module's own exception
classes plus the Python runtime errors (`AttributeError`, `ValueError`,
`TypeError`) that dynamic attribute access and numeric conversion can raise;
the bare `raise Exception(...)` sites of the module are the kind the spec
names `UnexpectedResponseError`, and the spec's `RateLimitedError` is the
module's `TooManyRequestsError` class.
-/

/-- A JSON value as produced by Python's `json` decoding: JSON numbers decode
to Python `int` or `float` (modelled with `ℚ` for the latter), objects keep
their key order as an association list. -/
inductive JValue where
  | null : JValue
  | str (s : String) : JValue
  | int (n : Int) : JValue
  | float (q : ℚ) : JValue
  | arr (xs : List JValue) : JValue
  | obj (fields : List (String × JValue)) : JValue

/-- The errors a client call can raise.  The first five are the exception
classes of `MeaterApi.py` (`unexpectedResponseError` standing for its bare
`raise Exception(...)` sites, which the spec calls `UnexpectedResponseError`,
and `tooManyRequestsError` being what the spec calls `RateLimitedError`);
the last three are Python runtime errors escaping from dynamic attribute
access and numeric conversion. -/
inductive MeaterError where
  | authenticationError : MeaterError
  | unknownDeviceError : MeaterError
  | serviceUnavailableError : MeaterError
  | tooManyRequestsError : MeaterError
  | unexpectedResponseError : MeaterError
  | attributeError : MeaterError
  | valueError : MeaterError
  | typeError : MeaterError
deriving DecidableEq

/-- An HTTP response from the injected transport: status code and decoded
JSON body. -/
structure Response where
  status : Nat
  body : JValue

/-- Python truthiness (`bool(v)`) of a JSON value: `None`, `""`, `0`, `[]`
and `\x7b\x7d` are falsy, everything else truthy.  Used by `if not self._jwt`
and `if not jwt`. -/
def pyFalsy : JValue → Bool
  | .null => true
  | .str s => s.data.isEmpty
  | .int n => n == 0
  | .float q => q == 0
  | .arr xs => xs.isEmpty
  | .obj fs => fs.isEmpty

/-- Python `v.get(key)` with default `None`: on a `dict` it returns the value
or `None`; on any non-dict value (including `None` itself and `str`) the
attribute lookup raises `AttributeError`. -/
def pyGet : JValue → String → Except MeaterError JValue
  | .obj fs, key =>
      match fs.lookup key with
      | some v => .ok v
      | none => .ok .null
  | _, _ => .error .attributeError

/-- Python `len(v)`: defined for `dict` (number of keys), `list` and `str`;
`TypeError` on `None` and numbers. -/
def pyLen : JValue → Except MeaterError Nat
  | .obj fs => .ok fs.length
  | .arr xs => .ok xs.length
  | .str s => .ok s.data.length
  | _ => .error .typeError

/-- Python iteration as used by `enumerate(v)`: a `list` yields its elements,
a `dict` yields its keys (in order) as strings, a `str` yields its characters
as one-character strings; `None` and numbers raise `TypeError` (not
iterable). -/
def pyIter : JValue → Except MeaterError (List JValue)
  | .arr xs => .ok xs
  | .obj fs => .ok (fs.map (fun f => JValue.str f.1))
  | .str s => .ok (s.data.map (fun c => JValue.str (String.singleton c)))
  | _ => .error .typeError

/-- Leading and trailing whitespace stripped from a character list, the
stripping `float(str)` and `int(str)` perform. -/
def trimChars (cs : List Char) : List Char :=
  ((cs.dropWhile Char.isWhitespace).reverse.dropWhile Char.isWhitespace).reverse

/-- Value of a nonempty run of decimal digits, `none` when some character is
not a digit. -/
def digitsToNat? (cs : List Char) : Option Nat :=
  if cs.all (fun c => c.isDigit) then
    some (cs.foldl (fun a c => a * 10 + (c.toNat - 48)) 0)
  else none

/-- Python `float(s)` on a string, restricted to plain decimal literals
(optional sign, digit run with an optional decimal point; at least one digit
overall): `"54.5"`, `"-3."`, `".5"`.  Exponent and infinity forms do not
occur in the payload shapes considered.  The value is returned as a signed
decimal mantissa together with the number of fraction digits, so the digit
scan stays in discrete arithmetic; `none` models `ValueError`. -/
def parsePyFloatRep (s : String) : Option (Int × Nat) :=
  let cs := trimChars s.data
  let signed : Bool × List Char :=
    match cs with
    | '-' :: r => (true, r)
    | '+' :: r => (false, r)
    | r => (false, r)
  let mag : Option (Nat × Nat) :=
    match (List.splitOn '.' signed.2) with
    | [a] => if a.isEmpty then none else (digitsToNat? a).map (fun n => (n, 0))
    | [a, b] =>
        if a.isEmpty && b.isEmpty then none
        else
          match digitsToNat? (if a.isEmpty then ['0'] else a),
                digitsToNat? (if b.isEmpty then ['0'] else b) with
          | some na, some nb => some (na * 10 ^ b.length + nb, b.length)
          | _, _ => none
    | _ => none
  mag.map (fun p => (if signed.1 then -(p.1 : Int) else (p.1 : Int), p.2))

/-- The rational value of a parsed decimal literal:
mantissa `m` over `10 ^ k` for `k` fraction digits. -/
def parsePyFloat (s : String) : Option ℚ :=
  (parsePyFloatRep s).map (fun p => (p.1 : ℚ) / (10 : ℚ) ^ p.2)

/-- Python `int(s)` on a string: optional sign and a nonempty digit run only
(`int("54.5")` is a `ValueError`).  `none` models `ValueError`. -/
def parsePyInt (s : String) : Option Int :=
  let cs := trimChars s.data
  let signed : Bool × List Char :=
    match cs with
    | '-' :: r => (true, r)
    | '+' :: r => (false, r)
    | r => (false, r)
  (digitsToNat? signed.2).map (fun n => if signed.1 then -(n : Int) else (n : Int))

/-- Truncation of a rational toward zero, Python's `int(float)`. -/
def ratTrunc (q : ℚ) : Int :=
  q.num.tdiv (q.den : Int)

/-- Python `float(v)` on a JSON value: numbers convert, strings are parsed
(`ValueError` on failure), `None` / lists / dicts raise `TypeError`. -/
def pyFloat : JValue → Except MeaterError ℚ
  | .int n => .ok (n : ℚ)
  | .float q => .ok q
  | .str s =>
      match parsePyFloat s with
      | some q => .ok q
      | none => .error .valueError
  | _ => .error .typeError

/-- Python `int(v)` on a JSON value: `int` stays, `float` truncates toward
zero, strings are parsed (`ValueError` on failure), `None` / lists / dicts
raise `TypeError`. -/
def pyInt : JValue → Except MeaterError Int
  | .int n => .ok n
  | .float q => .ok (ratTrunc q)
  | .str s =>
      match parsePyInt s with
      | some n => .ok n
      | none => .error .valueError
  | _ => .error .typeError

/-- Python `datetime.fromtimestamp(v)`: accepts a numeric epoch value
(modelled as the epoch seconds themselves, the calendar rendering being
irrelevant to the claims); `None` and strings raise `TypeError`. -/
def pyFromTimestamp : JValue → Except MeaterError ℚ
  | .int n => .ok (n : ℚ)
  | .float q => .ok q
  | _ => .error .typeError

/-- The `MeaterCook` value built by `MeaterCook.__init__`. -/
structure MeaterCook where
  id : JValue
  name : JValue
  state : JValue
  target_temperature : ℚ
  peak_temperature : ℚ
  time_remaining : Int
  time_elapsed : Int

/-- `MeaterCook.__init__(cookdata)`: `id`/`name`/`state` via `.get` with
default `None`, then `float(cookdata.get("temperature").get("target"))`,
`float(cookdata.get("temperature").get("peak"))`,
`int(cookdata.get("time").get("remaining"))`,
`int(cookdata.get("time").get("elapsed"))`, in the source's order. -/
def MeaterCook.make (cookdata : JValue) : Except MeaterError MeaterCook := do
  let i ← pyGet cookdata "id"
  let nm ← pyGet cookdata "name"
  let st ← pyGet cookdata "state"
  let temp1 ← pyGet cookdata "temperature"
  let target ← pyGet temp1 "target"
  let targetF ← pyFloat target
  let temp2 ← pyGet cookdata "temperature"
  let peak ← pyGet temp2 "peak"
  let peakF ← pyFloat peak
  let time1 ← pyGet cookdata "time"
  let remaining ← pyGet time1 "remaining"
  let remainingI ← pyInt remaining
  let time2 ← pyGet cookdata "time"
  let elapsed ← pyGet time2 "elapsed"
  let elapsedI ← pyInt elapsed
  pure { id := i, name := nm, state := st,
         target_temperature := targetF, peak_temperature := peakF,
         time_remaining := remainingI, time_elapsed := elapsedI }

/-- The `MeaterProbe` value built by `MeaterProbe.__init__`; `time_updated`
holds the epoch value handed to `datetime.fromtimestamp`. -/
structure MeaterProbe where
  id : JValue
  index : Nat
  internal_temperature : ℚ
  ambient_temperature : ℚ
  cook : Option MeaterCook
  time_updated : ℚ

/-- One iteration of the `get_devices` loop: Python evaluates the
`MeaterProbe(...)` arguments left to right (`device.get("id")`,
`device.get("temperature").get("internal")`,
`device.get("temperature").get("ambient")`, `device.get("cook")`,
`device.get("updated_at")`), then `__init__` runs `float(internal)`,
`float(ambient)`, `None if cookdata is None else MeaterCook(cookdata)`,
`datetime.fromtimestamp(updated)`. -/
def MeaterProbe.make (device : JValue) (index : Nat) :
    Except MeaterError MeaterProbe := do
  let idv ← pyGet device "id"
  let tempA ← pyGet device "temperature"
  let internal ← pyGet tempA "internal"
  let tempB ← pyGet device "temperature"
  let ambient ← pyGet tempB "ambient"
  let cookdata ← pyGet device "cook"
  let updated ← pyGet device "updated_at"
  let internalF ← pyFloat internal
  let ambientF ← pyFloat ambient
  let cook ← match cookdata with
    | .null => pure (Option.none (α := MeaterCook))
    | cd => (MeaterCook.make cd).map Option.some
  let ts ← pyFromTimestamp updated
  pure { id := idv, index := index,
         internal_temperature := internalF, ambient_temperature := ambientF,
         cook := cook, time_updated := ts }

/-- The body of `MeaterApi.__get_raw_state` after the request returned:
the status-code raise chain, the `len(...) == 0` check, then
`body.get("data")` for a single device or `body.get("data").get("devices")`
for the collection. -/
def getRawStateBody (deviceId : Option String) (resp : Response) :
    Except MeaterError JValue :=
  if resp.status = 404 then .error .unknownDeviceError
  else if resp.status = 401 then .error .authenticationError
  else if resp.status = 500 then .error .serviceUnavailableError
  else if resp.status = 429 then .error .tooManyRequestsError
  else if resp.status ≠ 200 then .error .unexpectedResponseError
  else
    match pyLen resp.body with
    | .error e => .error e
    | .ok n =>
      if n = 0 then .error .unexpectedResponseError
      else
        match pyGet resp.body "data" with
        | .error e => .error e
        | .ok data =>
          match deviceId with
          | some _ => .ok data
          | none => pyGet data "devices"

/-- `MeaterApi.__get_raw_state`: `self._jwt` is whatever JSON value a login
stored (initially `None`); a falsy token raises `AuthenticationError` before
any request, and `"Bearer " + jwt` raises `TypeError` on a truthy non-string
token, also before any request.  The second component counts the requests
issued to the injected transport. -/
def getRawState (jwt : JValue) (deviceId : Option String) (resp : Response) :
    Except MeaterError JValue × Nat :=
  if pyFalsy jwt then (.error .authenticationError, 0)
  else
    match jwt with
    | .str _ => (getRawStateBody deviceId resp, 1)
    | _ => (.error .typeError, 0)

/-- The probe-building loop of `get_devices`: `for index, device in
enumerate(device_states)` constructing `MeaterProbe(..., index + 1)`;
`idx` is the value `index + 1` for the head. -/
def buildProbes : Nat → List JValue → Except MeaterError (List MeaterProbe)
  | _, [] => .ok []
  | idx, d :: ds => do
      let p ← MeaterProbe.make d idx
      let ps ← buildProbes (idx + 1) ds
      pure (p :: ps)

/-- `MeaterApi.get_devices(device_id)`: raw state, then `enumerate` over it
building probes.  The second component counts transport requests. -/
def get_devices (jwt : JValue) (deviceId : Option String) (resp : Response) :
    Except MeaterError (List MeaterProbe) × Nat :=
  match getRawState jwt deviceId resp with
  | (.error e, n) => (.error e, n)
  | (.ok states, n) =>
      ((do
        let items ← pyIter states
        buildProbes 1 items), n)

/-- `MeaterApi.get_device(device_id)`: delegates to `get_devices`. -/
def get_device (jwt : JValue) (deviceId : String) (resp : Response) :
    Except MeaterError (List MeaterProbe) × Nat :=
  get_devices jwt (some deviceId) resp

/-- `list_devices` of the spec: `get_devices` with no device id. -/
def list_devices (jwt : JValue) (resp : Response) :
    Except MeaterError (List MeaterProbe) × Nat :=
  get_devices jwt none resp

/-- The body of `MeaterApi.authenticate` after the login request: the
status-code raise chain (no 404 branch and no length check here), then
`auth_body.get("data").get("token")`, raising `AuthenticationError` when the
extracted token is falsy, else yielding the token to store. -/
def authenticateBody (resp : Response) : Except MeaterError JValue :=
  if resp.status = 401 then .error .authenticationError
  else if resp.status = 500 then .error .serviceUnavailableError
  else if resp.status = 429 then .error .tooManyRequestsError
  else if resp.status ≠ 200 then .error .unexpectedResponseError
  else
    match pyGet resp.body "data" with
    | .error e => .error e
    | .ok data =>
      match pyGet data "token" with
      | .error e => .error e
      | .ok jwt =>
        if pyFalsy jwt then .error .authenticationError
        else .ok jwt

/-- `MeaterApi.authenticate`: on success returns `True` and stores the token
(`self._jwt = jwt` runs only after every check passed); on any raise the
stored token is unchanged.  The pair is (call result, token state after the
call), given the token state before it. -/
def authenticate (resp : Response) (jwt : JValue) :
    Except MeaterError Bool × JValue :=
  match authenticateBody resp with
  | .ok t => (.ok true, t)
  | .error e => (.error e, jwt)

/-- A device-collection response body, the wire shape
`\x7b"data": \x7b"devices": [...]\x7d\x7d`. -/
def devBody (ds : List JValue) : JValue :=
  .obj [("data", .obj [("devices", .arr ds)])]

/-- A device object with the four payload fields. -/
def probePayload (internal ambient cook upd : JValue) : JValue :=
  .obj [("id", .str "probe"),
        ("temperature", .obj [("internal", internal), ("ambient", ambient)]),
        ("cook", cook),
        ("updated_at", upd)]

/-- A device object with no `cook` key at all. -/
def noCookPayload (internal ambient upd : JValue) : JValue :=
  .obj [("id", .str "probe"),
        ("temperature", .obj [("internal", internal), ("ambient", ambient)]),
        ("updated_at", upd)]

/-- A cook object with the nested `temperature` and `time` sub-objects. -/
def cookPayload (target peak remaining elapsed : JValue) : JValue :=
  .obj [("id", .str "c1"), ("name", .str "Chicken"), ("state", .str "Cooking"),
        ("temperature", .obj [("target", target), ("peak", peak)]),
        ("time", .obj [("remaining", remaining), ("elapsed", elapsed)])]

/-- The single-device success body of the spec's scenario:
`\x7b"data": \x7b"id": "X", "temperature": \x7b"internal": "54.5",
"ambient": "22.1"\x7d, "cook": null, "updated_at": 1700000000\x7d\x7d`. -/
def singleDeviceBody : JValue :=
  .obj [("data",
    .obj [("id", .str "X"),
          ("temperature", .obj [("internal", .str "54.5"), ("ambient", .str "22.1")]),
          ("cook", .null),
          ("updated_at", .int 1700000000)])]

/-- A well-formed device object whose numeric fields are strings. -/
def devA : JValue :=
  .obj [("id", .str "A"),
        ("temperature", .obj [("internal", .str "54.5"), ("ambient", .str "22.1")]),
        ("cook", .null),
        ("updated_at", .int 1700000000)]

/-- A second well-formed device object with a different `id`. -/
def devB : JValue :=
  .obj [("id", .str "B"),
        ("temperature", .obj [("internal", .int 40), ("ambient", .int 21)]),
        ("cook", .null),
        ("updated_at", .int 1700000100)]

/-- A device object whose internal temperature is not numeric. -/
def badTempDevice : JValue :=
  .obj [("id", .str "A"),
        ("temperature", .obj [("internal", .str "abc"), ("ambient", .str "22.1")]),
        ("cook", .null),
        ("updated_at", .int 1700000000)]

/-- A nonempty string token is truthy, so it passes `if not self._jwt`. -/
theorem pyFalsy_str_of_ne {s : String} (hs : s ≠ "") :
    pyFalsy (.str s) = false := by
  cases s with
  | mk data =>
    cases data with
    | nil => exact absurd rfl hs
    | cons c cs => rfl

/-- Every probe the loop builds carries the loop position it was built at. -/
theorem MeaterProbe.make_index {d : JValue} {k : Nat} {p : MeaterProbe}
    (h : MeaterProbe.make d k = .ok p) : p.index = k := by
  simp only [MeaterProbe.make, bind, Except.bind, pure, Except.pure] at h
  repeat' split at h
  all_goals try exact Except.noConfusion h
  all_goals (injection h with h; subst h; rfl)

/-- Success of the probe-building loop: one probe per device object, the
probe at each position built from the device at that position, with the
head of the loop carrying index `k`. -/
theorem buildProbes_ok {devs : List JValue} :
    ∀ {k : Nat} {ps : List MeaterProbe}, buildProbes k devs = .ok ps →
      ps.length = devs.length ∧
      ∀ i (hp : i < ps.length) (hd : i < devs.length),
        MeaterProbe.make (devs.get ⟨i, hd⟩) (k + i) = .ok (ps.get ⟨i, hp⟩) := by
  induction devs with
  | nil =>
    intro k ps h
    simp only [buildProbes] at h
    injection h with h
    subst h
    exact ⟨rfl, fun i hp => absurd hp (by simp)⟩
  | cons d ds ih =>
    intro k ps h
    simp only [buildProbes, bind, Except.bind, pure, Except.pure] at h
    cases hmk : MeaterProbe.make d k with
    | error e => rw [hmk] at h; exact Except.noConfusion h
    | ok p =>
      rw [hmk] at h
      cases hrest : buildProbes (k + 1) ds with
      | error e => rw [hrest] at h; exact Except.noConfusion h
      | ok tail =>
        rw [hrest] at h
        injection h with h
        subst h
        obtain ⟨hlen, hidx⟩ := ih hrest
        refine ⟨by simp [hlen], ?_⟩
        intro i hp hd
        cases i with
        | zero => simpa using hmk
        | succ m =>
          have hm := hidx m (by simpa using hp) (by simpa using hd)
          have harith : k + 1 + m = k + (m + 1) := by omega
          rw [harith] at hm
          simpa using hm

/-- C1: for a device-collection response accepted with HTTP 200 holding `N`
device objects, a returning `list_devices` call yields exactly `N` probes;
the probe at each position is built from the device object at that position
and carries display index `position + 1` (so indices are `1..N` in response
order), whatever the devices' `id` fields hold. -/
theorem list_devices_assigns_positional_indices
    (s : String) (devs : List JValue) (ps : List MeaterProbe) (hs : s ≠ "")
    (h : (list_devices (.str s) ⟨200, devBody devs⟩).1 = .ok ps) :
    ps.length = devs.length ∧
    (∀ i (hp : i < ps.length), (ps.get ⟨i, hp⟩).index = i + 1) ∧
    (∀ i (hp : i < ps.length) (hd : i < devs.length),
      MeaterProbe.make (devs.get ⟨i, hd⟩) (i + 1) = .ok (ps.get ⟨i, hp⟩)) := by
  have h1 : getRawState (.str s) none ⟨200, devBody devs⟩ = (.ok (.arr devs), 1) := by
    unfold getRawState
    rw [pyFalsy_str_of_ne hs]
    rfl
  have h2 : list_devices (.str s) ⟨200, devBody devs⟩ = (buildProbes 1 devs, 1) := by
    unfold list_devices get_devices
    rw [h1]
    rfl
  have h3 : buildProbes 1 devs = .ok ps := by rw [h2] at h; exact h
  obtain ⟨hlen, hmk⟩ := buildProbes_ok h3
  refine ⟨hlen, ?_, ?_⟩
  · intro i hp
    have hd : i < devs.length := hlen ▸ hp
    have hi := MeaterProbe.make_index (hmk i hp hd)
    omega
  · intro i hp hd
    have := hmk i hp hd
    rwa [Nat.add_comm 1 i] at this

/-- C1 witness: a concrete two-device collection response yields two probes
with indices 1 and 2. -/
theorem list_devices_assigns_positional_indices_witness :
    ∃ ps, (list_devices (.str "t") ⟨200, devBody [devA, devB]⟩).1 = .ok ps ∧
      ps.length = 2 ∧ ∀ i (hp : i < ps.length), (ps.get ⟨i, hp⟩).index = i + 1 := by
  refine ⟨_, rfl, ?_⟩
  have h := list_devices_assigns_positional_indices "t" [devA, devB] _
    (by decide) rfl
  exact ⟨h.1, h.2.1⟩

/-- C2 (code bug): on the spec's single-device scenario body at HTTP 200,
`get_device` does not return one probe: `__get_raw_state` hands the single
device object (a dict) to the `enumerate` loop, which iterates the dict's
keys, so `device.get("id")` is attribute access on the string `"id"` and the
call raises `AttributeError` after the one transport request. -/
theorem get_device_single_object_attribute_error :
    get_device (.str "t") "X" ⟨200, singleDeviceBody⟩ =
      (.error .attributeError, 1) ∧
    MeaterError.attributeError ≠ MeaterError.unexpectedResponseError := by
  exact ⟨rfl, by decide⟩

/-- C4: with the stored token still absent (`self._jwt is None`), both device
calls fail with `AuthenticationError` and issue zero requests to the
transport, whatever response the transport would have given. -/
theorem unauthenticated_call_fails_without_request
    (resp : Response) (d : String) :
    list_devices .null resp = (.error .authenticationError, 0) ∧
    get_device .null d resp = (.error .authenticationError, 0) :=
  ⟨rfl, rfl⟩

/-- C10: a 200 login response whose body lacks the `data` envelope
(`\x7b\x7d`) makes `authenticate` raise `AttributeError` (from
`auth_body.get("data").get("token")` on `None`), which is none of the five
spec error kinds, and leaves the stored token unchanged. -/
theorem authenticate_missing_data_envelope_attribute_error (jwt : JValue) :
    authenticate ⟨200, .obj []⟩ jwt = (.error .attributeError, jwt) ∧
    MeaterError.attributeError ∉
      [MeaterError.authenticationError, MeaterError.unknownDeviceError,
       MeaterError.serviceUnavailableError, MeaterError.tooManyRequestsError,
       MeaterError.unexpectedResponseError] :=
  ⟨rfl, by decide⟩

/-- Bind on a successful `Except` value steps to the continuation. -/
theorem except_ok_bind {α β : Type} (a : α)
    (f : α → Except MeaterError β) : (Except.ok a >>= f) = f a := rfl

/-- Probe construction over the fixture payload, with the concrete field
lookups reduced: only the numeric conversions and the cook branch remain. -/
theorem make_probePayload (internal ambient cook upd : JValue) (k : Nat) :
    MeaterProbe.make (probePayload internal ambient cook upd) k =
      (do
        let internalF ← pyFloat internal
        let ambientF ← pyFloat ambient
        let ck ← match cook with
          | .null => pure (Option.none (α := MeaterCook))
          | cd => (MeaterCook.make cd).map Option.some
        let ts ← pyFromTimestamp upd
        pure { id := .str "probe", index := k,
               internal_temperature := internalF,
               ambient_temperature := ambientF,
               cook := ck, time_updated := ts }) := rfl

/-- The same reduction for the fixture payload with no `cook` key: the
missing key reads as `None`, so the cook branch is already `none`. -/
theorem make_noCookPayload (internal ambient upd : JValue) (k : Nat) :
    MeaterProbe.make (noCookPayload internal ambient upd) k =
      (do
        let internalF ← pyFloat internal
        let ambientF ← pyFloat ambient
        let ts ← pyFromTimestamp upd
        pure { id := .str "probe", index := k,
               internal_temperature := internalF,
               ambient_temperature := ambientF,
               cook := Option.none, time_updated := ts }) := rfl

/-- Cook construction over the fixture cook payload, with the concrete field
lookups reduced: only the four numeric conversions remain, in source
order. -/
theorem make_cookPayload (target peak remaining elapsed : JValue) :
    MeaterCook.make (cookPayload target peak remaining elapsed) =
      (do
        let targetF ← pyFloat target
        let peakF ← pyFloat peak
        let remainingI ← pyInt remaining
        let elapsedI ← pyInt elapsed
        pure { id := .str "c1", name := .str "Chicken", state := .str "Cooking",
               target_temperature := targetF, peak_temperature := peakF,
               time_remaining := remainingI, time_elapsed := elapsedI }) := rfl

/-- C3: the status-code → error-kind mapping holds for any response body:
401 → `AuthenticationError` on both endpoints, 404 → `UnknownDeviceError` on
the device endpoint (and the catch-all kind on login, which has no 404
branch), 429 → `TooManyRequestsError` (the spec's `RateLimitedError`),
500 → `ServiceUnavailableError`, and any other non-200 status → the
catch-all `UnexpectedResponseError`. -/
theorem status_code_error_mapping
    (s : String) (hs : s ≠ "") (body : JValue) (did : Option String)
    (j : JValue) (st : Nat) :
    (st = 401 →
      (get_devices (.str s) did ⟨st, body⟩).1 = .error .authenticationError ∧
      (authenticate ⟨st, body⟩ j).1 = .error .authenticationError) ∧
    (st = 404 →
      (get_devices (.str s) did ⟨st, body⟩).1 = .error .unknownDeviceError ∧
      (authenticate ⟨st, body⟩ j).1 = .error .unexpectedResponseError) ∧
    (st = 429 →
      (get_devices (.str s) did ⟨st, body⟩).1 = .error .tooManyRequestsError ∧
      (authenticate ⟨st, body⟩ j).1 = .error .tooManyRequestsError) ∧
    (st = 500 →
      (get_devices (.str s) did ⟨st, body⟩).1 = .error .serviceUnavailableError ∧
      (authenticate ⟨st, body⟩ j).1 = .error .serviceUnavailableError) ∧
    (st ≠ 200 → st ≠ 401 → st ≠ 404 → st ≠ 429 → st ≠ 500 →
      (get_devices (.str s) did ⟨st, body⟩).1 = .error .unexpectedResponseError ∧
      (authenticate ⟨st, body⟩ j).1 = .error .unexpectedResponseError) := by
  refine ⟨?_, ?_, ?_, ?_, ?_⟩
  · rintro rfl
    refine ⟨?_, rfl⟩
    unfold get_devices getRawState
    rw [pyFalsy_str_of_ne hs]
    rfl
  · rintro rfl
    refine ⟨?_, rfl⟩
    unfold get_devices getRawState
    rw [pyFalsy_str_of_ne hs]
    rfl
  · rintro rfl
    refine ⟨?_, rfl⟩
    unfold get_devices getRawState
    rw [pyFalsy_str_of_ne hs]
    rfl
  · rintro rfl
    refine ⟨?_, rfl⟩
    unfold get_devices getRawState
    rw [pyFalsy_str_of_ne hs]
    rfl
  · intro h200 h401 h404 h429 h500
    constructor
    · unfold get_devices getRawState getRawStateBody
      rw [pyFalsy_str_of_ne hs]
      simp [h200, h401, h404, h429, h500]
    · unfold authenticate authenticateBody
      simp [h200, h401, h429, h500]

/-- C3 witness: a 401 device-collection response with an arbitrary body maps
to `AuthenticationError`. -/
theorem status_code_error_mapping_witness :
    (get_devices (.str "t") none ⟨401, .null⟩).1 =
      .error .authenticationError :=
  ((status_code_error_mapping "t" (by decide) .null none .null 401).1 rfl).1

/-- C5: on a 200 login response carrying a `data` envelope, a missing token
field (read as `None`) or an empty-string token raises
`AuthenticationError` — not the catch-all kind — and leaves the stored token
unchanged; a nonempty string token makes the call return `True` and become
the new stored token, whatever token was stored before (so a later
successful `authenticate` overwrites an earlier one). -/
theorem authenticate_token_extraction
    (jwt : JValue) (d : List (String × JValue)) :
    ((d.lookup "token" = none ∨ d.lookup "token" = some (.str "")) →
      authenticate ⟨200, .obj [("data", .obj d)]⟩ jwt =
        (.error .authenticationError, jwt)) ∧
    (∀ tok : String, tok ≠ "" → d.lookup "token" = some (.str tok) →
      authenticate ⟨200, .obj [("data", .obj d)]⟩ jwt =
        (.ok true, .str tok)) := by
  constructor
  · intro h
    unfold authenticate authenticateBody
    rcases h with h | h <;> simp [pyGet, h, pyFalsy]
  · intro tok htok h
    unfold authenticate authenticateBody
    simp [pyGet, h, pyFalsy_str_of_ne htok]

/-- C5 witness: with an old token stored, a missing token field fails and
keeps the old token; a `"abc"` token is stored and returned as success. -/
theorem authenticate_token_extraction_witness :
    authenticate ⟨200, .obj [("data", .obj [("x", .int 1)])]⟩ (.str "old") =
      (.error .authenticationError, .str "old") ∧
    authenticate ⟨200, .obj [("data", .obj [("token", .str "abc")])]⟩
      (.str "old") = (.ok true, .str "abc") :=
  ⟨(authenticate_token_extraction (.str "old") [("x", .int 1)]).1
      (Or.inl rfl),
   (authenticate_token_extraction (.str "old") [("token", .str "abc")]).2
      "abc" (by decide) rfl⟩

/-- C6: at HTTP 200, a fully empty body (`\x7b\x7d`, length 0) makes
`list_devices` fail with the catch-all `UnexpectedResponseError` after the
one request, while a present-but-empty devices list yields the empty probe
sequence, not an error. -/
theorem empty_body_vs_empty_device_list (s : String) (hs : s ≠ "") :
    list_devices (.str s) ⟨200, .obj []⟩ =
      (.error .unexpectedResponseError, 1) ∧
    list_devices (.str s) ⟨200, devBody []⟩ = (.ok [], 1) := by
  constructor <;>
    (unfold list_devices get_devices getRawState;
     rw [pyFalsy_str_of_ne hs];
     rfl)

/-- C6 witness: the two 200-response shapes at a concrete token. -/
theorem empty_body_vs_empty_device_list_witness :
    list_devices (.str "t") ⟨200, .obj []⟩ =
      (.error .unexpectedResponseError, 1) ∧
    list_devices (.str "t") ⟨200, devBody []⟩ = (.ok [], 1) :=
  empty_body_vs_empty_device_list "t" (by decide)

/-- C7 counterexample: a device payload whose internal temperature is the
non-numeric string `"abc"` makes probe construction — and the whole
`list_devices` call — fail with the Python `ValueError` from `float("abc")`,
which is not the module's catch-all `raise Exception` kind the spec calls
`UnexpectedResponseError`. -/
theorem temperature_parse_failure_not_unexpected_response :
    (list_devices (.str "t") ⟨200, devBody [badTempDevice]⟩).1 =
      .error .valueError ∧
    MeaterProbe.make badTempDevice 1 = .error .valueError ∧
    MeaterError.valueError ≠ MeaterError.unexpectedResponseError :=
  ⟨rfl, rfl, by decide⟩

/-- C7 (amended): temperature fields are parsed to floating point whether
carried as JSON numbers or strings, and a failing conversion or lookup of a
required numeric field — probe temperatures, or the cook payload's target /
peak / remaining / elapsed being absent or non-numeric — aborts construction
with the raised Python error (a `ValueError`, `TypeError` or
`AttributeError`, not `UnexpectedResponseError`), never a silent default or
a partially constructed value. -/
theorem numeric_parse_errors_propagate
    (internal ambient target peak remaining elapsed : JValue)
    (e : MeaterError) :
    (∀ n : Int, pyFloat (.int n) = .ok (n : ℚ)) ∧
    (∀ q : ℚ, pyFloat (.float q) = .ok q) ∧
    (∀ s m k, parsePyFloatRep s = some (m, k) →
      pyFloat (.str s) = .ok ((m : ℚ) / (10 : ℚ) ^ k)) ∧
    (pyFloat internal = .error e →
      MeaterProbe.make (probePayload internal ambient .null (.int 0)) 1 =
        .error e) ∧
    (∀ qi, pyFloat internal = .ok qi → pyFloat ambient = .error e →
      MeaterProbe.make (probePayload internal ambient .null (.int 0)) 1 =
        .error e) ∧
    (pyFloat target = .error e →
      MeaterCook.make (cookPayload target peak remaining elapsed) =
        .error e) ∧
    (∀ qt, pyFloat target = .ok qt → pyFloat peak = .error e →
      MeaterCook.make (cookPayload target peak remaining elapsed) =
        .error e) ∧
    (∀ qt qp, pyFloat target = .ok qt → pyFloat peak = .ok qp →
      pyInt remaining = .error e →
      MeaterCook.make (cookPayload target peak remaining elapsed) =
        .error e) ∧
    (∀ qt qp nr, pyFloat target = .ok qt → pyFloat peak = .ok qp →
      pyInt remaining = .ok nr → pyInt elapsed = .error e →
      MeaterCook.make (cookPayload target peak remaining elapsed) =
        .error e) ∧
    (MeaterCook.make
      (.obj [("temperature", .obj [("target", .int 100), ("peak", .int 90)])]) =
        .error .attributeError) ∧
    (∀ v e', pyFloat v = .error e' → e' = .valueError ∨ e' = .typeError) ∧
    (∀ v e', pyInt v = .error e' → e' = .valueError ∨ e' = .typeError) := by
  refine ⟨fun n => rfl, fun q => rfl, ?_, ?_, ?_, ?_, ?_, ?_, ?_, rfl, ?_, ?_⟩
  · intro s m k h
    simp [pyFloat, parsePyFloat, h]
  · intro h
    rw [make_probePayload, h]
    rfl
  · intro qi hi ha
    rw [make_probePayload]
    simp only [hi, except_ok_bind, ha]
    rfl
  · intro h
    rw [make_cookPayload, h]
    rfl
  · intro qt ht hp
    rw [make_cookPayload]
    simp only [ht, except_ok_bind, hp]
    rfl
  · intro qt qp ht hp hr
    rw [make_cookPayload]
    simp only [ht, hp, except_ok_bind, hr]
    rfl
  · intro qt qp nr ht hp hr he
    rw [make_cookPayload]
    simp only [ht, hp, hr, except_ok_bind, he]
    rfl
  · intro v e' h
    cases v with
    | str s =>
      rcases hp : parsePyFloat s with _ | q
      · simp [pyFloat, hp] at h
        exact Or.inl h.symm
      · simp [pyFloat, hp] at h
    | null => simp [pyFloat] at h; exact Or.inr h.symm
    | int n => exact Except.noConfusion h
    | float q => exact Except.noConfusion h
    | arr xs => simp [pyFloat] at h; exact Or.inr h.symm
    | obj fs => simp [pyFloat] at h; exact Or.inr h.symm
  · intro v e' h
    cases v with
    | str s =>
      rcases hp : parsePyInt s with _ | n
      · simp [pyInt, hp] at h
        exact Or.inl h.symm
      · simp [pyInt, hp] at h
    | null => simp [pyInt] at h; exact Or.inr h.symm
    | int n => exact Except.noConfusion h
    | float q => exact Except.noConfusion h
    | arr xs => simp [pyInt] at h; exact Or.inr h.symm
    | obj fs => simp [pyInt] at h; exact Or.inr h.symm

/-- C7 witness: the non-numeric internal temperature `"abc"` aborts probe
construction with `ValueError`. -/
theorem numeric_parse_errors_propagate_witness :
    MeaterProbe.make
      (probePayload (.str "abc") (.str "22.1") .null (.int 0)) 1 =
      .error .valueError :=
  (numeric_parse_errors_propagate (.str "abc") (.str "22.1")
    .null .null .null .null .valueError).2.2.2.1 rfl

/-- C8: reading back a cook built from valid numeric payload fields returns
exactly the payload's target, peak, remaining and elapsed values — no unit
conversion, no rounding. -/
theorem cook_roundtrip_exact_values (qt qp : ℚ) (nr ne : Int) :
    ∃ p c,
      MeaterProbe.make
        (probePayload (.int 50) (.int 20)
          (cookPayload (.float qt) (.float qp) (.int nr) (.int ne))
          (.int 0)) 1 = .ok p ∧
      p.cook = some c ∧
      c.target_temperature = qt ∧ c.peak_temperature = qp ∧
      c.time_remaining = nr ∧ c.time_elapsed = ne := by
  exact ⟨_, _, rfl, rfl, rfl, rfl, rfl, rfl⟩

/-- C9: a device payload whose `cook` field is `null`, or which has no
`cook` key at all, still builds a probe (given parseable temperatures and a
numeric timestamp), and that probe's cook is absent. -/
theorem absent_cook_yields_probe_without_cook
    (internal ambient : JValue) (qi qa : ℚ) (n : Int)
    (hi : pyFloat internal = .ok qi) (ha : pyFloat ambient = .ok qa) :
    (∃ p, MeaterProbe.make (probePayload internal ambient .null (.int n)) 1 =
        .ok p ∧ p.cook = none) ∧
    (∃ p, MeaterProbe.make (noCookPayload internal ambient (.int n)) 1 =
        .ok p ∧ p.cook = none) := by
  constructor
  · refine ⟨⟨.str "probe", 1, qi, qa, none, (n : ℚ)⟩, ?_, rfl⟩
    rw [make_probePayload]
    simp only [hi, ha, except_ok_bind]
    rfl
  · refine ⟨⟨.str "probe", 1, qi, qa, none, (n : ℚ)⟩, ?_, rfl⟩
    rw [make_noCookPayload]
    simp only [hi, ha, except_ok_bind]
    rfl

/-- C9 witness: integer temperatures with a null cook field. -/
theorem absent_cook_yields_probe_without_cook_witness :
    ∃ p, MeaterProbe.make (probePayload (.int 50) (.int 20) .null (.int 0)) 1 =
      .ok p ∧ p.cook = none :=
  (absent_cook_yields_probe_without_cook (.int 50) (.int 20)
    ((50 : Int) : ℚ) ((20 : Int) : ℚ) 0 rfl rfl).1
